import Mathlib

/-!
Verification of the order-routing and supplier cost-resolution engine of the
IntimaSync Shopify app, shallowly embedded from `services/orderService.js`
(class `OrderService`: `processOrder`, `calculateOptimalRouting`) and
`services/supplierService.js` (`SupplierService.upsertProduct`).

Modelling conventions:
* JavaScript numbers holding money (`cost`, `totalCost`, `total_price`) are
  modelled as `ℚ`; quantities and inventories as `ℕ`.
* The Prisma database is modelled explicitly: the store's product catalog is a
  `List Product` (each product carrying its `SupplierProduct` rows), and the
  order tables are a `DB` record.  Queries scan the lists in order, matching
  Prisma `findFirst` semantics.
* `processOrder` issues its writes one by one with no transaction; we model it
  as a list of primitive write operations (`DBOp`) applied in program order, so
  every prefix of the operation list is a database state observable between
  two `await`ed writes.
* A JavaScript `Map` keyed by supplier name, iterated in insertion order, is
  modelled as an association list to which new keys are appended.
-/

/-- A `Supplier` row: only the fields read by the routing engine. -/
structure Supplier where
  id : Nat
  name : String
deriving DecidableEq, Repr

/-- A `SupplierProduct` row (one supplier's offer for a product), with its
included `supplier` relation, as fetched by `calculateOptimalRouting`. -/
structure SupplierProduct where
  supplierId : Nat
  supplier : Supplier
  cost : ℚ
  inventory : Nat
  supplierSku : String
deriving DecidableEq, Repr

/-- A `Product` row together with all of its `SupplierProduct` rows (the
`inventory > 0` filter of the Prisma `include` is applied at fetch time, in
`resolveItem` below). -/
structure Product where
  id : Nat
  storeId : Nat
  shopifyProductId : String
  internalSku : String
  isSupplierLocked : Bool
  preferredSupplier : Option String
  supplierProducts : List SupplierProduct
deriving DecidableEq, Repr

/-- One Shopify line item as read by `calculateOptimalRouting`
(`item.product_id.toString()`, `item.sku`, `item.quantity`). -/
structure LineItem where
  product_id : String
  sku : String
  quantity : Nat
deriving DecidableEq, Repr

/-- The incoming Shopify order, with the fields `processOrder` reads. -/
structure ShopifyOrder where
  id : String
  order_number : Nat
  email : String
  total_price : ℚ
  shipping_address : String
  line_items : List LineItem
deriving DecidableEq, Repr

/-- The store on whose behalf the order is processed. -/
structure Store where
  id : Nat
deriving DecidableEq, Repr

/-- JavaScript truthiness of the optional `preferredSupplier` string:
`null`/`undefined` and the empty string are falsy. -/
def jsTruthy : Option String → Bool
  | none => false
  | some s => s ≠ ""

/-- The body of the `reduce` in `calculateOptimalRouting`:
`(prev, current) => prev.cost < current.cost ? prev : current`. -/
def routeReduce (prev current : SupplierProduct) : SupplierProduct :=
  if prev.cost < current.cost then prev else current

/-- `list.reduce(routeReduce)` on a non-empty JavaScript array `acc :: l`:
fold the comparator from the left starting at the first element. -/
def jsReduceMin (acc : SupplierProduct) (l : List SupplierProduct) : SupplierProduct :=
  l.foldl routeReduce acc

/-- The supplier-selection logic of `calculateOptimalRouting` (lines 70–80),
applied to the in-stock offer list `sps` of a found product.  The code guards
on `product.supplierProducts.length > 0`, so an empty list yields no selection;
otherwise `selectedSupplier` starts as `supplierProducts[0]`, the locked branch
uses `find(...) || selectedSupplier`, and the unlocked branch is the
minimum-cost `reduce`. -/
def selectedOffer (p : Product) (sps : List SupplierProduct) : Option SupplierProduct :=
  match sps with
  | [] => none
  | sp0 :: rest =>
    some <|
      if p.isSupplierLocked && jsTruthy p.preferredSupplier then
        ((sp0 :: rest).find? fun sp =>
          sp.supplier.name == p.preferredSupplier.getD "").getD sp0
      else
        jsReduceMin sp0 rest

/-- The Prisma `findFirst` of `calculateOptimalRouting` (lines 53–67): first
product of the store whose `shopifyProductId` matches `item.product_id` or
whose `internalSku` matches `item.sku`. -/
def findProduct (store : Store) (catalog : List Product) (item : LineItem) :
    Option Product :=
  catalog.find? fun p =>
    (p.shopifyProductId == item.product_id || p.internalSku == item.sku)
      && p.storeId == store.id

/-- Resolution of one line item: look the product up, fetch its offers filtered
to `inventory > 0` (the `where` clause of the `include`), and run the supplier
selection.  Returns the product and the chosen offer, or `none` when the item
is skipped (product missing, or no in-stock offer). -/
def resolveItem (store : Store) (catalog : List Product) (item : LineItem) :
    Option (Product × SupplierProduct) :=
  match findProduct store catalog item with
  | none => none
  | some product =>
    match selectedOffer product
        (product.supplierProducts.filter fun sp => 0 < sp.inventory) with
    | none => none
    | some sel => some (product, sel)

/-- One entry pushed onto a supplier bucket's `items` array (lines 94–99). -/
structure RouteItem where
  productId : Nat
  quantity : Nat
  cost : ℚ
  supplierSku : String
deriving DecidableEq, Repr

/-- One value of the `productsBySupplier` map: `{supplierId, items, totalCost,
totalItems}`. -/
structure SupplierBucket where
  supplierId : Nat
  items : List RouteItem
  totalCost : ℚ
  totalItems : Nat
deriving DecidableEq, Repr

/-- Push one resolved item into a bucket, updating the running aggregates
exactly as lines 94–101 do. -/
def pushIntoBucket (b : SupplierBucket) (ri : RouteItem) : SupplierBucket :=
  { b with
    items := b.items ++ [ri]
    totalCost := b.totalCost + ri.cost * (ri.quantity : ℚ)
    totalItems := b.totalItems + ri.quantity }

/-- The route-item record built at lines 94–99 from the product, the line item
and the selected offer. -/
def newRouteItem (product : Product) (item : LineItem) (sel : SupplierProduct) :
    RouteItem :=
  { productId := product.id
    quantity := item.quantity
    cost := sel.cost
    supplierSku := sel.supplierSku }

/-- Insertion into the `productsBySupplier` map (lines 84–101): create the
empty bucket if the supplier name is absent (appended, since a JS `Map`
iterates in insertion order), then push the item into the named bucket. -/
def addToRouting (acc : List (String × SupplierBucket)) (name : String)
    (supplierId : Nat) (ri : RouteItem) : List (String × SupplierBucket) :=
  if acc.any fun e => e.1 == name then
    acc.map fun e => if e.1 == name then (e.1, pushIntoBucket e.2 ri) else e
  else
    acc ++ [(name,
      pushIntoBucket { supplierId := supplierId, items := [], totalCost := 0,
                       totalItems := 0 } ri)]

/-- The body of the `for (const item of lineItems)` loop of
`calculateOptimalRouting`: unresolvable items leave the accumulator untouched
(lines 69/102 — no diagnostic of any kind is recorded), resolved items are
added to their supplier's bucket. -/
def routeStep (store : Store) (catalog : List Product)
    (acc : List (String × SupplierBucket)) (item : LineItem) :
    List (String × SupplierBucket) :=
  match resolveItem store catalog item with
  | none => acc
  | some (product, sel) =>
    addToRouting acc sel.supplier.name sel.supplierId
      (newRouteItem product item sel)

/-- `OrderService.calculateOptimalRouting(lineItems, store)` (lines 49–106):
fold the loop body over the line items and return
`Array.from(productsBySupplier.values())`. -/
def calculateOptimalRouting (store : Store) (catalog : List Product)
    (lineItems : List LineItem) : List SupplierBucket :=
  (lineItems.foldl (routeStep store catalog) []).map Prod.snd

/-- An `Order` row as created at lines 10–19. -/
structure Order where
  id : Nat
  shopifyOrderId : String
  orderNumber : Nat
  customerEmail : String
  totalAmount : ℚ
  shippingAddress : String
  storeId : Nat
deriving DecidableEq, Repr

/-- An `OrderItem` row as created at lines 26–36. -/
structure OrderItem where
  orderId : Nat
  productId : Nat
  supplierId : Nat
  quantity : Nat
  unitCost : ℚ
  totalCost : ℚ
  supplierSku : String
deriving DecidableEq, Repr

/-- The order tables of the database, plus the id the next `order.create`
will assign. -/
structure DB where
  nextOrderId : Nat
  orders : List Order
  orderItems : List OrderItem
deriving DecidableEq, Repr

/-- One primitive write issued by `processOrder`: each corresponds to one
`await prisma....create(...)` call.  There is no transaction in the source, so
consecutive operations are separated by suspension points at which other
readers can observe the database. -/
inductive DBOp where
  | createOrder : Order → DBOp
  | createOrderItem : OrderItem → DBOp
deriving DecidableEq, Repr

/-- Apply one write to the database. -/
def applyOp (db : DB) : DBOp → DB
  | DBOp.createOrder o =>
    { db with orders := db.orders ++ [o], nextOrderId := db.nextOrderId + 1 }
  | DBOp.createOrderItem it =>
    { db with orderItems := db.orderItems ++ [it] }

/-- Apply a sequence of writes in program order. -/
def applyOps (db : DB) (ops : List DBOp) : DB :=
  ops.foldl applyOp db

/-- The `Order` row built by `prisma.order.create` at lines 10–19, with the
database assigning the fresh id.  Note that no lookup for an existing order
with the same `shopifyOrderId` precedes it. -/
def mkOrder (so : ShopifyOrder) (store : Store) (db : DB) : Order :=
  { id := db.nextOrderId
    shopifyOrderId := so.id
    orderNumber := so.order_number
    customerEmail := so.email
    totalAmount := so.total_price
    shippingAddress := so.shipping_address
    storeId := store.id }

/-- The `OrderItem` creations of the nested loop at lines 24–38: one
`orderItem.create` per item of each routing bucket, in routing order. -/
def itemOpsOf (orderId : Nat) (routing : List SupplierBucket) : List DBOp :=
  routing.flatMap fun route =>
    route.items.map fun item =>
      DBOp.createOrderItem
        { orderId := orderId
          productId := item.productId
          supplierId := route.supplierId
          quantity := item.quantity
          unitCost := item.cost
          totalCost := item.cost * (item.quantity : ℚ)
          supplierSku := item.supplierSku }

/-- The full write trace of `OrderService.processOrder(shopifyOrder, store)`
(lines 8–47): first the unconditional `order.create`, then the per-item
`orderItem.create` calls for the routing plan computed from the line items. -/
def processOrderOps (catalog : List Product) (so : ShopifyOrder) (store : Store)
    (db : DB) : List DBOp :=
  DBOp.createOrder (mkOrder so store db) ::
    itemOpsOf (mkOrder so store db).id
      (calculateOptimalRouting store catalog so.line_items)

/-- `processOrder` run to completion: the value it returns (the created order,
line 41) and the final database state. -/
def processOrder (catalog : List Product) (so : ShopifyOrder) (store : Store)
    (db : DB) : Order × DB :=
  (mkOrder so store db, applyOps db (processOrderOps catalog so store db))

/-- A `SupplierProduct` row as stored by `SupplierService.upsertProduct`,
with its sync timestamp. -/
structure SupplierProductRow where
  productId : Nat
  supplierId : Nat
  supplierSku : String
  cost : ℚ
  inventory : Nat
  lastSyncAt : Nat
deriving DecidableEq, Repr

/-- The normalized feed fields consumed by the upsert (after
`parseFloat(productData.cost || productData.price)` and
`parseInt(productData.inventory || 0)`). -/
structure FeedData where
  sku : String
  cost : ℚ
  inventory : Nat
deriving DecidableEq, Repr

/-- `prisma.supplierProduct.upsert` of `SupplierService.upsertProduct`
(lines 163–183), keyed on `(productId, supplierId)`: the `update` clause sets
only `cost`, `inventory` and `lastSyncAt`; the `create` clause additionally
captures `supplierSku` from the feed. -/
def upsertSupplierProduct (table : List SupplierProductRow)
    (productId supplierId : Nat) (feed : FeedData) (now : Nat) :
    List SupplierProductRow :=
  if table.any fun r => r.productId == productId && r.supplierId == supplierId then
    table.map fun r =>
      if r.productId == productId && r.supplierId == supplierId then
        { r with cost := feed.cost, inventory := feed.inventory, lastSyncAt := now }
      else r
  else
    table ++ [{ productId := productId
                supplierId := supplierId
                supplierSku := feed.sku
                cost := feed.cost
                inventory := feed.inventory
                lastSyncAt := now }]

/-- The aggregate invariant of a supplier bucket claimed by the spec:
`totalCost = Σ(unitCost × quantity)` and `totalItems = Σ quantity` over the
bucket's items. -/
def bucketOk (b : SupplierBucket) : Prop :=
  b.totalCost = (b.items.map fun it => it.cost * (it.quantity : ℚ)).sum ∧
  b.totalItems = (b.items.map fun it => it.quantity).sum

/-! ### Concrete fixtures (suppliers, offers, products, orders) used by the
counterexamples and witnesses.  The costs and inventories of `offA`/`offB`
are the ones of the spec's worked examples. -/

def supA : Supplier := { id := 1, name := "A" }

def supB : Supplier := { id := 2, name := "B" }

def offA : SupplierProduct :=
  { supplierId := 1, supplier := supA, cost := 10, inventory := 5, supplierSku := "skuA" }

def offB : SupplierProduct :=
  { supplierId := 2, supplier := supB, cost := 8, inventory := 3, supplierSku := "skuB" }

def offB0 : SupplierProduct :=
  { supplierId := 2, supplier := supB, cost := 8, inventory := 0, supplierSku := "skuB0" }

def offA5 : SupplierProduct :=
  { supplierId := 1, supplier := supA, cost := 5, inventory := 1, supplierSku := "skuA5" }

def offB5 : SupplierProduct :=
  { supplierId := 2, supplier := supB, cost := 5, inventory := 1, supplierSku := "skuB5" }

def offB2 : SupplierProduct :=
  { supplierId := 2, supplier := supB, cost := 8, inventory := 4, supplierSku := "skuB2" }

def store7 : Store := { id := 7 }

def prodUnlocked : Product :=
  { id := 100, storeId := 7, shopifyProductId := "p100", internalSku := "s100",
    isSupplierLocked := false, preferredSupplier := none,
    supplierProducts := [offA, offB] }

def prodLockedA : Product :=
  { prodUnlocked with isSupplierLocked := true, preferredSupplier := some "A" }

def prodLockedC : Product :=
  { prodUnlocked with isSupplierLocked := true, preferredSupplier := some "C" }

def prodNoStock : Product :=
  { id := 200, storeId := 7, shopifyProductId := "p200", internalSku := "s200",
    isSupplierLocked := false, preferredSupplier := none,
    supplierProducts := [offB0] }

def prodB2 : Product :=
  { id := 101, storeId := 7, shopifyProductId := "p101", internalSku := "s101",
    isSupplierLocked := false, preferredSupplier := none,
    supplierProducts := [offB2] }

def prodInv0 : Product :=
  { id := 300, storeId := 7, shopifyProductId := "p300", internalSku := "s300",
    isSupplierLocked := false, preferredSupplier := none,
    supplierProducts := [offB0, offA] }

def itemGood : LineItem := { product_id := "p100", sku := "s100", quantity := 2 }

def itemBad : LineItem := { product_id := "nope", sku := "nope", quantity := 1 }

def itemNoStock : LineItem := { product_id := "p200", sku := "s200", quantity := 1 }

def itemB2 : LineItem := { product_id := "p101", sku := "s101", quantity := 1 }

def itemInv0 : LineItem := { product_id := "p300", sku := "s300", quantity := 1 }

def so1 : ShopifyOrder :=
  { id := "ext1", order_number := 1001, email := "c@example.com", total_price := 20,
    shipping_address := "addr", line_items := [itemGood] }

def soAllFail : ShopifyOrder :=
  { id := "ext2", order_number := 1002, email := "c@example.com", total_price := 9,
    shipping_address := "addr", line_items := [itemBad, itemNoStock] }

def db0 : DB := { nextOrderId := 0, orders := [], orderItems := [] }

def catalogB : List Product := [prodUnlocked, prodB2]

def bucketB : SupplierBucket :=
  { supplierId := 2
    items := [{ productId := 100, quantity := 2, cost := 8, supplierSku := "skuB" },
              { productId := 101, quantity := 1, cost := 8, supplierSku := "skuB2" }]
    totalCost := 24
    totalItems := 3 }

def rowC10 : SupplierProductRow :=
  { productId := 1, supplierId := 2, supplierSku := "orig-sku", cost := 3,
    inventory := 10, lastSyncAt := 5 }

def otherRowC10 : SupplierProductRow :=
  { productId := 9, supplierId := 2, supplierSku := "other-sku", cost := 4,
    inventory := 1, lastSyncAt := 5 }

def tableC10 : List SupplierProductRow := [rowC10, otherRowC10]

def feedC10 : FeedData := { sku := "different-sku", cost := 7, inventory := 0 }

/-! ### Helper lemmas -/

/-- The JavaScript `reduce` keeps its accumulator exactly when the accumulator
is strictly cheaper, so its result has minimal cost among `acc :: l`, and it
is the first minimal-cost element of the reversed candidate list — that is,
the LAST minimal-cost candidate in list order. -/
theorem jsReduceMin_min_last (acc : SupplierProduct) (l : List SupplierProduct) :
    (∀ sp ∈ acc :: l, (jsReduceMin acc l).cost ≤ sp.cost) ∧
    (acc :: l).reverse.find?
        (fun sp => decide (sp.cost = (jsReduceMin acc l).cost))
      = some (jsReduceMin acc l) := by
  induction l using List.reverseRecOn with
  | nil =>
    refine ⟨?_, by simp [jsReduceMin]⟩
    intro sp hsp
    have : sp = acc := by simpa using hsp
    simp [this, jsReduceMin]
  | append_singleton l x ih =>
    have hfold : jsReduceMin acc (l ++ [x]) = routeReduce (jsReduceMin acc l) x := by
      simp [jsReduceMin, List.foldl_append]
    have hrev : (acc :: (l ++ [x])).reverse = x :: (acc :: l).reverse := by
      have : acc :: (l ++ [x]) = (acc :: l) ++ [x] := by simp
      rw [this, List.reverse_append]
      simp
    by_cases hc : (jsReduceMin acc l).cost < x.cost
    · have hres : jsReduceMin acc (l ++ [x]) = jsReduceMin acc l := by
        rw [hfold, routeReduce, if_pos hc]
      constructor
      · intro sp hsp
        rw [hres]
        rcases by simpa [List.mem_cons, List.mem_append, or_assoc] using hsp
          with h | h | h
        · exact h ▸ ih.1 acc (List.mem_cons_self _ _)
        · exact ih.1 sp (List.mem_cons_of_mem _ h)
        · exact h ▸ le_of_lt hc
      · rw [hres, hrev, List.find?_cons_of_neg]
        · exact ih.2
        · simp only [decide_eq_true_eq]
          exact ne_of_gt hc
    · have hxle : x.cost ≤ (jsReduceMin acc l).cost := le_of_not_lt hc
      have hres : jsReduceMin acc (l ++ [x]) = x := by
        rw [hfold, routeReduce, if_neg hc]
      constructor
      · intro sp hsp
        rw [hres]
        rcases by simpa [List.mem_cons, List.mem_append, or_assoc] using hsp
          with h | h | h
        · exact le_trans hxle (h ▸ ih.1 acc (List.mem_cons_self _ _))
        · exact le_trans hxle (ih.1 sp (List.mem_cons_of_mem _ h))
        · exact h ▸ le_refl _
      · rw [hres, hrev, List.find?_cons_of_pos]
        simp

/-- The reduce result is one of the candidates. -/
theorem jsReduceMin_mem (l : List SupplierProduct) :
    ∀ acc, jsReduceMin acc l ∈ acc :: l := by
  induction l with
  | nil => intro acc; simp [jsReduceMin]
  | cons c rest ih =>
    intro acc
    have h1 : jsReduceMin acc (c :: rest) = jsReduceMin (routeReduce acc c) rest := rfl
    rw [h1]
    have h3 : routeReduce acc c = acc ∨ routeReduce acc c = c := by
      unfold routeReduce; split <;> simp
    rcases List.mem_cons.mp (ih (routeReduce acc c)) with h | h
    · rcases h3 with h4 | h4 <;> rw [h, h4] <;> simp
    · simp [List.mem_cons, h]

/-- Whatever branch runs, the selected offer is one of the candidate offers. -/
theorem selectedOffer_mem (p : Product) (sps : List SupplierProduct)
    (sel : SupplierProduct) (h : selectedOffer p sps = some sel) : sel ∈ sps := by
  rcases sps with _ | ⟨sp0, rest⟩
  · simp [selectedOffer] at h
  · simp only [selectedOffer, Option.some.injEq] at h
    subst h
    split
    · rcases hf : (sp0 :: rest).find?
          (fun sp => sp.supplier.name == p.preferredSupplier.getD "") with _ | m
      · simp [hf]
      · rw [hf]
        simp only [Option.getD_some]
        exact List.mem_of_find?_eq_some hf
    · exact jsReduceMin_mem rest sp0

/-- Every write of the item loop is an `orderItem.create`. -/
theorem itemOps_all_create (orderId : Nat) (routing : List SupplierBucket) :
    ∀ op ∈ itemOpsOf orderId routing, ∃ it, op = DBOp.createOrderItem it := by
  intro op hop
  simp only [itemOpsOf, List.mem_flatMap, List.mem_map] at hop
  obtain ⟨route, _, item, _, rfl⟩ := hop
  exact ⟨_, rfl⟩

/-- `orderItem.create` writes never touch the `orders` table or the id counter. -/
theorem applyOps_items_orders (ops : List DBOp)
    (h : ∀ op ∈ ops, ∃ it, op = DBOp.createOrderItem it) :
    ∀ db : DB, (applyOps db ops).orders = db.orders := by
  induction ops with
  | nil => intro db; rfl
  | cons op rest ih =>
    intro db
    obtain ⟨it, rfl⟩ := h op (List.mem_cons_self _ _)
    have h1 : applyOps db (DBOp.createOrderItem it :: rest)
        = applyOps (applyOp db (DBOp.createOrderItem it)) rest := rfl
    rw [h1, ih (fun o ho => h o (List.mem_cons_of_mem _ ho))]
    rfl

/-- After a full `processOrder` run the `orders` table has gained exactly the
one new row, unconditionally: no duplicate check precedes `order.create`. -/
theorem processOrder_db_orders (catalog : List Product) (so : ShopifyOrder)
    (store : Store) (db : DB) :
    (processOrder catalog so store db).2.orders = db.orders ++ [mkOrder so store db] := by
  show (applyOps db (processOrderOps catalog so store db)).orders = _
  rw [processOrderOps]
  have h1 : applyOps db (DBOp.createOrder (mkOrder so store db)
        :: itemOpsOf (mkOrder so store db).id
             (calculateOptimalRouting store catalog so.line_items))
      = applyOps (applyOp db (DBOp.createOrder (mkOrder so store db)))
          (itemOpsOf (mkOrder so store db).id
             (calculateOptimalRouting store catalog so.line_items)) := rfl
  rw [h1, applyOps_items_orders _ (itemOps_all_create _ _)]
  rfl

/-- Pushing one item into a bucket preserves the aggregate invariant. -/
theorem pushIntoBucket_ok (b : SupplierBucket) (ri : RouteItem) (h : bucketOk b) :
    bucketOk (pushIntoBucket b ri) := by
  obtain ⟨h1, h2⟩ := h
  constructor
  · simp [pushIntoBucket, h1]
  · simp [pushIntoBucket, h2]

/-- Routing-map insertion preserves the aggregate invariant of every bucket. -/
theorem addToRouting_ok (acc : List (String × SupplierBucket)) (name : String)
    (supplierId : Nat) (ri : RouteItem) (h : ∀ e ∈ acc, bucketOk e.2) :
    ∀ e ∈ addToRouting acc name supplierId ri, bucketOk e.2 := by
  intro e he
  unfold addToRouting at he
  split at he
  · rcases List.mem_map.mp he with ⟨e0, he0, rfl⟩
    split
    · exact pushIntoBucket_ok _ _ (h e0 he0)
    · exact h e0 he0
  · rcases List.mem_append.mp he with h2 | h2
    · exact h e h2
    · have he3 : e = (name,
          pushIntoBucket { supplierId := supplierId, items := [], totalCost := 0,
                           totalItems := 0 } ri) := by
        simpa using h2
      rw [he3]
      exact pushIntoBucket_ok _ _ (by constructor <;> simp)

/-- The loop of `calculateOptimalRouting` preserves the aggregate invariant. -/
theorem foldl_routeStep_ok (store : Store) (catalog : List Product) :
    ∀ (items : List LineItem) (acc : List (String × SupplierBucket)),
      (∀ e ∈ acc, bucketOk e.2) →
      ∀ e ∈ items.foldl (routeStep store catalog) acc, bucketOk e.2 := by
  intro items
  induction items with
  | nil => intro acc h e he; exact h e he
  | cons item rest ih =>
    intro acc h
    have hstep : ∀ e ∈ routeStep store catalog acc item, bucketOk e.2 := by
      rcases hres : resolveItem store catalog item with _ | ⟨prod, sel⟩
      · simpa [routeStep, hres] using h
      · simp only [routeStep, hres]
        exact addToRouting_ok _ _ _ _ h
    exact ih (routeStep store catalog acc item) hstep

/-! ### Claim C1 — idempotency of the order commit -/

/-- C1, counterexample.  Committing the same external order reference twice is
NOT idempotent: `processOrder` never looks for an existing Order, so the
second call creates a second `Order` row with the same `shopifyOrderId` and a
second set of `OrderItems`, and returns a different Order (fresh id) rather
than the first result. -/
theorem C1_counterexample :
    (((processOrder [prodUnlocked] so1 store7
          ((processOrder [prodUnlocked] so1 store7 db0).2)).2.orders.filter
        fun o => o.shopifyOrderId == "ext1").length = 2 ∧
      (processOrder [prodUnlocked] so1 store7
          ((processOrder [prodUnlocked] so1 store7 db0).2)).1 ≠
        (processOrder [prodUnlocked] so1 store7 db0).1) ∧
    (processOrder [prodUnlocked] so1 store7
        ((processOrder [prodUnlocked] so1 store7 db0).2)).2.orderItems.length = 2 := by
  decide

/-- C1, amended.  `processOrder` performs no duplicate check: every call
appends one more `Order` row carrying the incoming `shopifyOrderId`, so n
commits of the same reference leave n Orders (the claimed "exactly one Order,
second call a no-op" does not hold). -/
theorem C1_amended (catalog : List Product) (so : ShopifyOrder) (store : Store)
    (db : DB) :
    ((processOrder catalog so store db).2.orders.filter
        fun o => o.shopifyOrderId == so.id).length
      = (db.orders.filter fun o => o.shopifyOrderId == so.id).length + 1 := by
  rw [processOrder_db_orders, List.filter_append]
  simp [mkOrder]

/-! ### Claim C2 — atomicity of the Order+OrderItems write -/

/-- C2, counterexample.  The commit is not atomic: for a one-item order the
write trace has two separate operations, and the database state after the
first one (a state observable between the two `await`ed Prisma calls — there
is no transaction) contains the Order row with zero of its OrderItems, while
the completed run has one OrderItem.  The claimed "no state with the Order
present but only some OrderItems is ever observable" is false. -/
theorem C2_counterexample :
    (processOrderOps [prodUnlocked] so1 store7 db0).length = 2 ∧
    (applyOps db0 ((processOrderOps [prodUnlocked] so1 store7 db0).take 1)).orders.length = 1 ∧
    (applyOps db0 ((processOrderOps [prodUnlocked] so1 store7 db0).take 1)).orderItems.length = 0 ∧
    (applyOps db0 (processOrderOps [prodUnlocked] so1 store7 db0)).orderItems.length = 1 := by
  decide

/-- C2, amended.  The `order.create` is its own first write and every
`orderItem.create` is a separate later write: after the first operation of
any `processOrder` trace, the Order row is already present while the order's
OrderItems are all still missing, so whenever the routing plan is non-empty
the intermediate states are exactly the partial writes the spec rules out. -/
theorem C2_amended (catalog : List Product) (so : ShopifyOrder) (store : Store)
    (db : DB) :
    (applyOps db ((processOrderOps catalog so store db).take 1)).orders
        = db.orders ++ [mkOrder so store db] ∧
    (applyOps db ((processOrderOps catalog so store db).take 1)).orderItems
        = db.orderItems := by
  constructor <;> simp [processOrderOps, applyOps, applyOp]

/-! ### Claim C3 — all line items failing resolution -/

/-- C3, counterexample.  For an order whose two line items both fail
resolution (unknown product, and a product with no in-stock offer), the
routing plan is empty, yet `processOrder` still creates the Order row (it is
created before routing even runs), creates no OrderItems, and returns that
Order as a success — there is no `NoRoutableItems` error anywhere in the
code.  The claimed "returns NoRoutableItems and no Order row is created" is
false. -/
theorem C3_counterexample :
    calculateOptimalRouting store7 [prodNoStock] soAllFail.line_items = [] ∧
    (processOrder [prodNoStock] soAllFail store7 db0).2.orders.length = 1 ∧
    (processOrder [prodNoStock] soAllFail store7 db0).2.orderItems = [] ∧
    (processOrder [prodNoStock] soAllFail store7 db0).1.shopifyOrderId = "ext2" := by
  decide

/-- C3, amended.  When every line item fails resolution the routing plan is
empty and `processOrder` still creates (and returns) the Order row, with zero
OrderItems, as a normal success. -/
theorem C3_amended (catalog : List Product) (so : ShopifyOrder) (store : Store)
    (db : DB) (h : calculateOptimalRouting store catalog so.line_items = []) :
    (processOrder catalog so store db).2.orders = db.orders ++ [mkOrder so store db] ∧
    (processOrder catalog so store db).2.orderItems = db.orderItems ∧
    (processOrder catalog so store db).1 = mkOrder so store db := by
  refine ⟨processOrder_db_orders catalog so store db, ?_, rfl⟩
  show (applyOps db (processOrderOps catalog so store db)).orderItems = _
  simp [processOrderOps, h, itemOpsOf, applyOps, applyOp]

/-- C3, witness for the amended theorem at the concrete all-failing order. -/
theorem C3_witness :
    calculateOptimalRouting store7 [prodNoStock] soAllFail.line_items = [] ∧
    ((processOrder [prodNoStock] soAllFail store7 db0).2.orders
        = db0.orders ++ [mkOrder soAllFail store7 db0] ∧
      (processOrder [prodNoStock] soAllFail store7 db0).2.orderItems = db0.orderItems ∧
      (processOrder [prodNoStock] soAllFail store7 db0).1 = mkOrder soAllFail store7 db0) :=
  ⟨by decide, C3_amended [prodNoStock] soAllFail store7 db0 (by decide)⟩

/-! ### Claim C4 — lock-miss fallback -/

/-- C4, counterexample.  `prodLockedC` is locked on supplier "C", no in-stock
offer is from "C", and the candidates are `offA` (cost 10) then `offB`
(cost 8).  Policy 3 (minimum cost) would select `offB`, but the code's
`find(...) || selectedSupplier` falls back to `supplierProducts[0]` and
selects `offA` — so the claimed fallback to the minimum-cost policy is
false. -/
theorem C4_counterexample :
    prodLockedC.isSupplierLocked = true ∧
    prodLockedC.preferredSupplier = some "C" ∧
    (∀ sp ∈ [offA, offB], ¬ sp.supplier.name = "C") ∧
    offB.cost < offA.cost ∧
    selectedOffer prodLockedC [offA, offB] = some offA := by
  decide

/-- C4, amended.  For a locked product with a (truthy) preferred supplier
that matches none of the in-stock offers, the selection falls back to the
FIRST in-stock offer in candidate order (`supplierProducts[0]`), not to the
minimum-cost offer. -/
theorem C4_amended (p : Product) (sp0 : SupplierProduct)
    (rest : List SupplierProduct) (hl : p.isSupplierLocked = true)
    (ht : jsTruthy p.preferredSupplier = true)
    (hn : (sp0 :: rest).find?
        (fun sp => sp.supplier.name == p.preferredSupplier.getD "") = none) :
    selectedOffer p (sp0 :: rest) = some sp0 := by
  simp [selectedOffer, hl, ht, hn]

/-- C4, witness for the amended theorem at the concrete locked product. -/
theorem C4_witness :
    prodLockedC.isSupplierLocked = true ∧
    jsTruthy prodLockedC.preferredSupplier = true ∧
    ([offA, offB].find?
        (fun sp => sp.supplier.name == prodLockedC.preferredSupplier.getD "") = none) ∧
    selectedOffer prodLockedC [offA, offB] = some offA :=
  ⟨by decide, by decide, by decide,
    C4_amended prodLockedC offA [offB] (by decide) (by decide) (by decide)⟩

/-! ### Claim C5 — unlocked selection and tie-break -/

/-- C5, counterexample.  Two in-stock offers share the minimum cost 5; the
supplier names are "A" and "B" with "A" < "B", so the claimed tie-break
(least supplier name) would select `offA5`, but the `reduce` keeps `prev`
only when strictly cheaper and therefore selects `offB5`, the LAST minimal
offer in candidate order. -/
theorem C5_counterexample :
    prodUnlocked.isSupplierLocked = false ∧
    offA5.cost = offB5.cost ∧
    offA5.supplier.name = "A" ∧
    offB5.supplier.name = "B" ∧
    selectedOffer prodUnlocked [offA5, offB5] = some offB5 ∧
    ¬ (selectedOffer prodUnlocked [offA5, offB5]).map
        (fun sp => sp.supplier.name) = some "A" := by
  decide

/-- C5, amended.  For a product that does not take the locked branch and a
non-empty in-stock candidate list, the selection is the `reduce` result: an
offer of minimum cost among the candidates; when several offers share the
minimum cost it is the one occurring LAST in candidate order (equivalently,
the first minimal-cost offer of the reversed candidate list), not the one
with the least supplier name. -/
theorem C5_amended (p : Product) (sp0 : SupplierProduct)
    (rest : List SupplierProduct)
    (h : (p.isSupplierLocked && jsTruthy p.preferredSupplier) = false) :
    selectedOffer p (sp0 :: rest) = some (jsReduceMin sp0 rest) ∧
    (∀ sp ∈ sp0 :: rest, (jsReduceMin sp0 rest).cost ≤ sp.cost) ∧
    (sp0 :: rest).reverse.find?
        (fun sp => decide (sp.cost = (jsReduceMin sp0 rest).cost))
      = some (jsReduceMin sp0 rest) := by
  refine ⟨by simp [selectedOffer, h], ?_, ?_⟩
  · exact (jsReduceMin_min_last sp0 rest).1
  · exact (jsReduceMin_min_last sp0 rest).2

/-- C5, witness for the amended theorem at the concrete cost tie. -/
theorem C5_witness :
    ((prodUnlocked.isSupplierLocked && jsTruthy prodUnlocked.preferredSupplier) = false) ∧
    (selectedOffer prodUnlocked [offA5, offB5] = some (jsReduceMin offA5 [offB5]) ∧
      (∀ sp ∈ [offA5, offB5], (jsReduceMin offA5 [offB5]).cost ≤ sp.cost) ∧
      [offA5, offB5].reverse.find?
          (fun sp => decide (sp.cost = (jsReduceMin offA5 [offB5]).cost))
        = some (jsReduceMin offA5 [offB5])) :=
  ⟨by decide, C5_amended prodUnlocked offA5 [offB5] (by decide)⟩

/-! ### Claim C6 — lock override -/

/-- C6: for a locked product whose (non-empty) preferred supplier name is
carried by some in-stock offer, the selection returns an offer from exactly
that supplier, regardless of cost: the locked branch runs and its `find`
succeeds. -/
theorem C6_lock_override (p : Product) (sps : List SupplierProduct) (s : String)
    (hl : p.isSupplierLocked = true) (hp : p.preferredSupplier = some s)
    (hs : s ≠ "") (hm : ∃ sp ∈ sps, sp.supplier.name = s) :
    ∃ sel, selectedOffer p sps = some sel ∧ sel ∈ sps ∧ sel.supplier.name = s := by
  have hgd : p.preferredSupplier.getD "" = s := by rw [hp]; rfl
  rcases sps with _ | ⟨sp0, rest⟩
  · rcases hm with ⟨sp, hmem, _⟩
    simp at hmem
  · have hcond : (p.isSupplierLocked && jsTruthy p.preferredSupplier) = true := by
      rw [hl, hp]
      simp [jsTruthy, hs]
    rcases hm with ⟨sp, hmem, hname⟩
    rcases hfind : (sp0 :: rest).find?
        (fun x => x.supplier.name == p.preferredSupplier.getD "") with _ | m
    · exfalso
      have hnone := List.find?_eq_none.mp hfind sp hmem
      apply hnone
      simp [hgd, hname]
    · refine ⟨m, ?_, List.mem_of_find?_eq_some hfind, ?_⟩
      · simp [selectedOffer, hcond, hfind]
      · have hpm := List.find?_some hfind
        rw [hgd] at hpm
        simpa using hpm

/-- C6, witness: the spec's lock-override example — offers A (cost 10) and B
(cost 8), product locked on "A": the selection is from supplier "A" despite
the higher cost. -/
theorem C6_witness :
    prodLockedA.isSupplierLocked = true ∧
    prodLockedA.preferredSupplier = some "A" ∧
    ("A" : String) ≠ "" ∧
    (∃ sp ∈ [offA, offB], sp.supplier.name = "A") ∧
    (∃ sel, selectedOffer prodLockedA [offA, offB] = some sel ∧
      sel ∈ [offA, offB] ∧ sel.supplier.name = "A") :=
  ⟨by decide, by decide, by decide, ⟨offA, by decide, by decide⟩,
    C6_lock_override prodLockedA [offA, offB] "A" (by decide) (by decide)
      (by decide) ⟨offA, by decide, by decide⟩⟩

/-! ### Claim C7 — per-item diagnostics and partial routing -/

/-- C7, counterexample.  With one resolvable and one unresolvable line item,
the routing output is literally identical to the output for the input without
the failing item: the failure leaves no trace of any kind in the result — no
`ProductNotFound`/`NoSupplierAvailable` diagnostic entry exists anywhere (the
plan is a bare bucket list), so the claimed "diagnostics list with one entry
per failed item" is false.  The partial-routing half of the claim does hold:
the resolvable item is still routed. -/
theorem C7_counterexample :
    resolveItem store7 [prodUnlocked] itemBad = none ∧
    calculateOptimalRouting store7 [prodUnlocked] [itemGood, itemBad]
      = calculateOptimalRouting store7 [prodUnlocked] [itemGood] ∧
    calculateOptimalRouting store7 [prodUnlocked] [itemGood, itemBad]
      = [{ supplierId := 2
           items := [{ productId := 100, quantity := 2, cost := 8,
                       supplierSku := "skuB" }]
           totalCost := 16
           totalItems := 2 }] := by
  refine ⟨by decide, by rfl, ?_⟩
  have h1 : resolveItem store7 [prodUnlocked] itemGood = some (prodUnlocked, offB) := by
    decide
  have h2 : resolveItem store7 [prodUnlocked] itemBad = none := by decide
  simp only [calculateOptimalRouting, List.foldl, routeStep, h1, h2]
  norm_num [addToRouting, pushIntoBucket, newRouteItem, offB, supB, prodUnlocked,
    itemGood]

/-- C7, amended.  A line item that fails resolution is silently skipped — no
diagnostic is recorded — and the rest of the order is routed exactly as if
the failed item were absent, so the plan contains exactly the resolved items
and nothing else. -/
theorem C7_amended (store : Store) (catalog : List Product)
    (l1 l2 : List LineItem) (bad : LineItem)
    (h : resolveItem store catalog bad = none) :
    calculateOptimalRouting store catalog (l1 ++ bad :: l2)
      = calculateOptimalRouting store catalog (l1 ++ l2) := by
  unfold calculateOptimalRouting
  rw [List.foldl_append, List.foldl_append]
  have hskip : routeStep store catalog (l1.foldl (routeStep store catalog) []) bad
      = l1.foldl (routeStep store catalog) [] := by
    simp [routeStep, h]
  have hcons : (bad :: l2).foldl (routeStep store catalog)
        (l1.foldl (routeStep store catalog) [])
      = l2.foldl (routeStep store catalog)
          (routeStep store catalog (l1.foldl (routeStep store catalog) []) bad) := rfl
  rw [hcons, hskip]

/-- C7, witness for the amended theorem at the concrete mixed order. -/
theorem C7_witness :
    resolveItem store7 [prodUnlocked] itemBad = none ∧
    calculateOptimalRouting store7 [prodUnlocked] ([itemGood] ++ itemBad :: [])
      = calculateOptimalRouting store7 [prodUnlocked] ([itemGood] ++ []) :=
  ⟨by decide, C7_amended store7 [prodUnlocked] [itemGood] [] itemBad (by decide)⟩

/-! ### Claim C8 — zero-inventory offers are never selected -/

/-- C8: whenever the routing decision for a line item selects an offer, that
offer has inventory strictly greater than 0 — the candidate set is the
product's offers filtered to `inventory > 0` at fetch time, and the selection
always returns one of the candidates. -/
theorem C8_inventory_exclusion (store : Store) (catalog : List Product)
    (item : LineItem) (p : Product) (sel : SupplierProduct)
    (h : resolveItem store catalog item = some (p, sel)) : 0 < sel.inventory := by
  rcases hf : findProduct store catalog item with _ | product
  · simp [resolveItem, hf] at h
  · rcases hs : selectedOffer product
        (product.supplierProducts.filter fun sp => 0 < sp.inventory) with _ | s
    · simp [resolveItem, hf, hs] at h
    · simp only [resolveItem, hf, hs, Option.some.injEq, Prod.mk.injEq] at h
      obtain ⟨rfl, rfl⟩ := h
      have hmem := selectedOffer_mem _ _ _ hs
      have := (List.mem_filter.mp hmem).2
      simpa using this

/-- C8, witness: a product whose cheapest offer has inventory 0 — the
selection skips it (it is not even a candidate) and picks the in-stock offer
`offA`, whose inventory is positive. -/
theorem C8_witness :
    resolveItem store7 [prodInv0] itemInv0 = some (prodInv0, offA) ∧
    0 < offA.inventory :=
  ⟨by decide,
    C8_inventory_exclusion store7 [prodInv0] itemInv0 prodInv0 offA (by decide)⟩

/-! ### Claim C9 — aggregate sums -/

/-- C9: every bucket of every produced routing plan satisfies
`totalCost = Σ(cost × quantity)` and `totalItems = Σ quantity` over its items,
and every `OrderItem` written by `processOrder` has
`totalCost = unitCost × quantity` (line 33 of the source computes it exactly
so). -/
theorem C9_aggregate_sums (store : Store) (catalog : List Product) :
    (∀ (items : List LineItem) (b : SupplierBucket),
        b ∈ calculateOptimalRouting store catalog items → bucketOk b) ∧
    (∀ (so : ShopifyOrder) (db : DB) (it : OrderItem),
        DBOp.createOrderItem it ∈ processOrderOps catalog so store db →
        it.totalCost = it.unitCost * (it.quantity : ℚ)) := by
  constructor
  · intro items b hb
    simp only [calculateOptimalRouting] at hb
    rcases List.mem_map.mp hb with ⟨e, he, rfl⟩
    exact foldl_routeStep_ok store catalog items [] (by simp) e he
  · intro so db it hit
    simp only [processOrderOps, List.mem_cons] at hit
    rcases hit with h | h
    · simp at h
    · simp only [itemOpsOf, List.mem_flatMap, List.mem_map] at h
      obtain ⟨route, _, item, _, heq⟩ := h
      injection heq with h2
      subst h2
      rfl

/-- C9, witness: the spec's worked example — one bucket for supplier "B" with
items of quantities 2 and 1 at cost 8 each, `totalCost = 24`,
`totalItems = 3`. -/
theorem C9_witness :
    bucketB ∈ calculateOptimalRouting store7 catalogB [itemGood, itemB2] ∧
    bucketOk bucketB := by
  have heq : calculateOptimalRouting store7 catalogB [itemGood, itemB2] = [bucketB] := by
    have h1 : resolveItem store7 catalogB itemGood = some (prodUnlocked, offB) := by
      decide
    have h2 : resolveItem store7 catalogB itemB2 = some (prodB2, offB2) := by decide
    simp only [calculateOptimalRouting, List.foldl, routeStep, h1, h2]
    norm_num [addToRouting, pushIntoBucket, newRouteItem, offB, offB2, supB,
      prodUnlocked, prodB2, bucketB, itemGood, itemB2]
  have hmem : bucketB ∈ calculateOptimalRouting store7 catalogB [itemGood, itemB2] := by
    rw [heq]
    exact List.mem_singleton.mpr rfl
  exact ⟨hmem, (C9_aggregate_sums store7 catalogB).1 [itemGood, itemB2] bucketB hmem⟩

/-! ### Claim C10 — sync upsert frame condition -/

/-- C10: when a `SupplierProduct` row for `(productId, supplierId)` already
exists, the upsert maps every row of the table in place: matching rows get
exactly the new `cost`, `inventory` and `lastSyncAt` and keep every other
field — in particular `supplierSku` keeps the value captured at creation,
even though the feed carries a (possibly different) `sku` — and non-matching
rows are untouched. -/
theorem C10_upsert_frame (table : List SupplierProductRow) (pid sid : Nat)
    (feed : FeedData) (now : Nat)
    (hex : (table.any fun r => r.productId == pid && r.supplierId == sid) = true) :
    ∀ (i : Nat) (r : SupplierProductRow), table[i]? = some r →
      (upsertSupplierProduct table pid sid feed now)[i]? =
        some (if r.productId == pid && r.supplierId == sid then
                { r with cost := feed.cost, inventory := feed.inventory,
                         lastSyncAt := now }
              else r) := by
  intro i r hr
  unfold upsertSupplierProduct
  rw [if_pos hex, List.getElem?_map, hr]
  rfl

/-- C10, witness: a stored row with `supplierSku = "orig-sku"` synced against
a feed reporting `sku = "different-sku"`: the updated row keeps the original
sku and takes the feed's cost and inventory. -/
theorem C10_witness :
    tableC10[0]? = some rowC10 ∧
    feedC10.sku ≠ rowC10.supplierSku ∧
    (upsertSupplierProduct tableC10 1 2 feedC10 99)[0]? =
      some (if rowC10.productId == 1 && rowC10.supplierId == 2 then
              { rowC10 with cost := feedC10.cost, inventory := feedC10.inventory,
                            lastSyncAt := 99 }
            else rowC10) :=
  ⟨by decide, by decide,
    C10_upsert_frame tableC10 1 2 feedC10 99 (by decide) 0 rowC10 (by decide)⟩
